import Mathlib

/-!
Shallow embedding of the connection-lifecycle core of the Autovoice
repository (`src/manager/DiscordManager.ts` and
`src/manager/SecurityManager.ts`), together with theorems settling the
frozen claims about it.

Modelling conventions:
* The mutable fields of `DiscordManager` (`runningClients`,
  `connectionAttempts`, `isLowResourceMode`) become an explicit
  `ManagerState` record threaded through each operation.
* The outside world's responses during one `connectAccount` call
  (gateway probe result, login outcome, guild/channel resolution, join
  outcome) become a `ConnectEnv` record of booleans; the corresponding
  responses during one reconnect-watcher firing become a `ReconnectEnv`.
* UI notifications and side effects on runtime handles are recorded as a
  trace of structured `Event`s (the Vietnamese message strings are
  abstracted to their kind; interpolated identifiers are kept).
* A `Client` object is identified by the `Nat` drawn from
  `ManagerState.nextClientId` at its construction site (`new Client(...)`).
* JS `Map<string, number>` is an association list with unique keys;
  `map.get(k) || 0` is `mapGet`, `map.set` is `mapSet`, `map.delete` is
  `mapDelete`, `map.clear()` replaces the list by `[]`.
* Token strings are `List Char` (JS `substring` becomes `take`/`drop`),
  and the sampled heap footprint in megabytes is a rational number.
-/

namespace Autovoice

/-- `MAX_RECONNECT_ATTEMPTS` constant of `DiscordManager` (line 28). -/
def MAX_RECONNECT_ATTEMPTS : Nat := 5

/-- `RECONNECT_TIMEOUT` constant of `DiscordManager` (line 29), in ms. -/
def RECONNECT_TIMEOUT : Nat := 5000

/-- `HIGH_MEMORY_THRESHOLD` constant of `DiscordManager` (line 31), in MB. -/
def HIGH_MEMORY_THRESHOLD : ℚ := 500

/-- `getReconnectDelay` (DiscordManager.ts lines 544-555):
base delay `RECONNECT_TIMEOUT`, doubled per attempt, capped at 5 minutes. -/
def getReconnectDelay (attempts : Nat) : Nat :=
  let baseDelay := RECONNECT_TIMEOUT
  let maxDelay := 5 * 60 * 1000
  let delay := baseDelay * 2 ^ attempts
  min delay maxDelay

/-- One tick of the memory monitor body (DiscordManager.ts lines 53-79):
given the sampled `heapUsedMB` and the current `isLowResourceMode` flag,
returns the new flag.  The first branch also calls `optimizeMemoryUsage`
and the UI, which do not touch the flag and are omitted here. -/
def memoryMonitorTick (heapUsedMB : ℚ) (isLowResourceMode : Bool) : Bool :=
  if heapUsedMB > HIGH_MEMORY_THRESHOLD ∧ isLowResourceMode = false then
    true
  else if heapUsedMB < HIGH_MEMORY_THRESHOLD * (7 / 10) ∧ isLowResourceMode = true then
    false
  else
    isLowResourceMode

/-- `SecurityManager.getMaskedToken` (SecurityManager.ts lines 237-242):
tokens of length ≤ 10 are returned as-is, longer ones as
`substring(0,5) + "..." + substring(length-5)`.  Strings are `List Char`. -/
def getMaskedToken (token : List Char) : List Char :=
  if token.length ≤ 10 then
    token
  else
    token.take 5 ++ ['.', '.', '.'] ++ token.drop (token.length - 5)

/-- The `Account` fields `connectAccount` and the watcher read
(`src/types.ts`). -/
structure Account where
  token : String
  name : String
  guildId : String
  channelId : String
  selfMute : Bool
  selfDeaf : Bool
  selfVideo : Bool
  deriving Repr, DecidableEq

/-- One entry of `runningClients`: the `{ client, account }` pair, with the
client identified by its creation index and by whether its voice
connection is live (`client.voice?.connection` truthy). -/
structure RunningClient where
  clientId : Nat
  account : Account
  hasVoiceConn : Bool
  deriving Repr, DecidableEq

/-- The mutable state of a `DiscordManager` instance. -/
structure ManagerState where
  runningClients : List RunningClient
  connectionAttempts : List (String × Nat)
  isLowResourceMode : Bool
  nextClientId : Nat
  deriving Repr, DecidableEq

/-- `connectionAttempts.get(token) || 0`. -/
def mapGet (m : List (String × Nat)) (k : String) : Nat :=
  ((m.find? (fun p => p.1 == k)).map Prod.snd).getD 0

/-- `connectionAttempts.get(token)` without the `|| 0` default. -/
def mapLookup (m : List (String × Nat)) (k : String) : Option Nat :=
  (m.find? (fun p => p.1 == k)).map Prod.snd

/-- `connectionAttempts.set(token, v)`: replace in place if the key is
bound, else append (JS `Map` insertion-order semantics). -/
def mapSet (m : List (String × Nat)) (k : String) (v : Nat) : List (String × Nat) :=
  if m.any (fun p => p.1 == k) then
    m.map (fun p => if p.1 == k then (k, v) else p)
  else
    m ++ [(k, v)]

/-- `connectionAttempts.delete(token)`. -/
def mapDelete (m : List (String × Nat)) (k : String) : List (String × Nat) :=
  m.filter (fun p => !(p.1 == k))

/-- Observable events of a run: UI notifications (abstracted to their
kind, keeping interpolated identifiers) and side effects on runtime
handles. -/
inductive Event where
  | apiDownError
  | alreadyConnectedWarn (name : String)
  | voiceDisconnect (clientId : Nat)
  | destroyClient (clientId : Nat)
  | tooManyAttemptsError (attempts : Nat)
  | loginAttempt (token : String)
  | loginError
  | loggedInInfo
  | guildNotFoundError (guildId : String)
  | channelNotFoundError (channelId : String)
  | notVoiceChannelError
  | joinedChannelSuccess
  | joinVoiceError
  | disconnectingAllInfo
  | noAccountsWarn
  | disconnectedInfo (name : String)
  | allDisconnectedSuccess
  | reconnectingWarn (name : String)
  | reconnectStoppedError (attempts : Nat)
  | reconnectedSuccess (name : String)
  | rejoinError (name : String)
  deriving Repr, DecidableEq

/-- The outside world's responses during one `connectAccount` call:
whether the gateway status probe reports healthy, whether
`client.login` succeeds, how the guild/channel of the account resolve in
the ready handler, and whether `joinChannel` succeeds. -/
structure ConnectEnv where
  apiHealthy : Bool
  loginOk : Bool
  guildExists : Bool
  channelExists : Bool
  isVoiceChannel : Bool
  joinOk : Bool
  deriving Repr, DecidableEq

/-- `indexOf` + `splice(index, 1)` on the client found by
`runningClients.find(rc => rc.account.token === account.token)`:
removes the first entry whose account token matches. -/
def removeFirstByToken (tok : String) : List RunningClient → List RunningClient
  | [] => []
  | rc :: rest =>
    if rc.account.token == tok then rest
    else rc :: removeFirstByToken tok rest

/-- Result of one `connectAccount` call: the returned value
(`Client | null` as the optional client id), the final manager state, and
the emitted event trace. -/
structure ConnectResult where
  ret : Option Nat
  state : ManagerState
  events : List Event
  deriving Repr, DecidableEq

/-- `connectAccount` (DiscordManager.ts lines 155-339), including the
effects of the `ready` handler attached at line 256.

Control flow of the source, in order:
1. `checkDiscordAPIStatus`; on failure show an error and return `null`
   with nothing changed (lines 157-161).
2. `decryptToken` (a pure transform of the token; the decoded form is
   only passed to `login` and is left abstract here).
3. If a running client with the same `account.token` exists: warn,
   disconnect its voice connection if any, `destroy()` it, splice it out
   of `runningClients`, and delete its attempt counter (lines 167-191).
4. `new Client(clientOptions)` (line 253) — modelled as drawing
   `nextClientId`.
5. In the `try` block: read the attempt counter; if it is ≥
   `MAX_RECONNECT_ATTEMPTS` show an error and return `null` (lines
   313-319); otherwise store counter+1, then `await client.login`
   (lines 321-324).  A login failure is caught: error shown, `null`
   returned (lines 331-338).
6. On login success the new `{ client, account }` is pushed and the
   client returned (lines 329-330); the `ready` handler resolves guild
   and channel (errors shown if absent or not a voice channel, lines
   259-289) and on a successful `joinChannel` deletes the attempt
   counter (line 282).  The handler mutates no other manager state; its
   effects are appended to the trace of the same call. -/
def connectAccount (env : ConnectEnv) (account : Account) (s : ManagerState) :
    ConnectResult :=
  if env.apiHealthy = false then
    { ret := none, state := s, events := [Event.apiDownError] }
  else
    let existing := s.runningClients.find? (fun rc => rc.account.token == account.token)
    let s1 : ManagerState :=
      match existing with
      | some _ =>
        { s with
          runningClients := removeFirstByToken account.token s.runningClients
          connectionAttempts := mapDelete s.connectionAttempts account.token }
      | none => s
    let ev1 : List Event :=
      match existing with
      | some rc =>
        [Event.alreadyConnectedWarn account.name] ++
          (if rc.hasVoiceConn then [Event.voiceDisconnect rc.clientId] else []) ++
          [Event.destroyClient rc.clientId]
      | none => []
    let clientId := s1.nextClientId
    let s2 := { s1 with nextClientId := s1.nextClientId + 1 }
    let attempts := mapGet s2.connectionAttempts account.token
    if MAX_RECONNECT_ATTEMPTS ≤ attempts then
      { ret := none, state := s2, events := ev1 ++ [Event.tooManyAttemptsError attempts] }
    else
      let s3 :=
        { s2 with connectionAttempts := mapSet s2.connectionAttempts account.token (attempts + 1) }
      if env.loginOk = false then
        { ret := none, state := s3
          events := ev1 ++ [Event.loginAttempt account.token, Event.loginError] }
      else
        let joined := env.guildExists && env.channelExists && env.isVoiceChannel && env.joinOk
        let s4 :=
          { s3 with
            runningClients :=
              s3.runningClients ++ [⟨clientId, account, joined⟩] }
        let readyEvents : List Event :=
          if env.guildExists = false then [Event.guildNotFoundError account.guildId]
          else if env.channelExists = false then [Event.channelNotFoundError account.channelId]
          else if env.isVoiceChannel = false then [Event.notVoiceChannelError]
          else if env.joinOk then [Event.joinedChannelSuccess]
          else [Event.joinVoiceError]
        let s5 :=
          if joined then
            { s4 with connectionAttempts := mapDelete s4.connectionAttempts account.token }
          else s4
        { ret := some clientId, state := s5
          events :=
            ev1 ++ [Event.loginAttempt account.token, Event.loggedInInfo] ++ readyEvents }

/-- Result of a `disconnectAll` call: the final state, the event trace,
the ids of the clients whose `destroy()` completed, and whether the call
ran to completion (`completed = false` means an exception escaped to the
caller). -/
structure DisconnectAllResult where
  state : ManagerState
  events : List Event
  destroyed : List Nat
  completed : Bool
  deriving Repr, DecidableEq

/-- The `forEach` body iterated over `runningClients` (DiscordManager.ts
lines 350-358): per client, disconnect its voice connection if live, then
`destroy()` it and show an info line.  `throws c` says whether client
`c`'s teardown (`destroy()`) throws; the source has no try/catch around
the body, so a throw aborts the whole `forEach` and propagates. -/
def teardownLoop (throws : Nat → Bool) :
    List RunningClient → List Event × List Nat × Bool
  | [] => ([], [], true)
  | rc :: rest =>
    let leaveEvs : List Event :=
      if rc.hasVoiceConn then [Event.voiceDisconnect rc.clientId] else []
    if throws rc.clientId then
      (leaveEvs, [], false)
    else
      let r := teardownLoop throws rest
      (leaveEvs ++ Event.destroyClient rc.clientId ::
         Event.disconnectedInfo rc.account.name :: r.1,
       rc.clientId :: r.2.1, r.2.2)

/-- `disconnectAll` (DiscordManager.ts lines 342-368): info message; if no
client is running, a warning and an early return; otherwise the
`forEach` teardown loop, then `runningClients.length = 0`,
`connectionAttempts.clear()` and a success message.  The two trailing
statements run only if no teardown threw: an exception from the loop
leaves both structures untouched and propagates to the caller. -/
def disconnectAll (throws : Nat → Bool) (s : ManagerState) : DisconnectAllResult :=
  if s.runningClients.isEmpty then
    { state := s, events := [Event.disconnectingAllInfo, Event.noAccountsWarn]
      destroyed := [], completed := true }
  else
    let r := teardownLoop throws s.runningClients
    if r.2.2 then
      { state := { s with runningClients := [], connectionAttempts := [] }
        events := Event.disconnectingAllInfo :: r.1 ++ [Event.allDisconnectedSuccess]
        destroyed := r.2.1, completed := true }
    else
      { state := s, events := Event.disconnectingAllInfo :: r.1
        destroyed := r.2.1, completed := false }

/-- The outside world's responses during one firing of the reconnect
watcher's `setTimeout` callback: gateway probe result, guild/channel
resolution from the client's cache, and the `joinChannel` outcome. -/
structure ReconnectEnv where
  apiHealthy : Bool
  guildExists : Bool
  channelExists : Bool
  isVoiceChannel : Bool
  joinOk : Bool
  deriving Repr, DecidableEq

/-- Result of one firing of the `voiceStateUpdate` involuntary-disconnect
branch: the attempt map afterwards, whether a reconnect was scheduled
(`setTimeout` reached), the delay passed to `setTimeout` when it was,
whether `joinChannel` was actually invoked, and the event trace. -/
structure FireResult where
  attempts : List (String × Nat)
  scheduled : Bool
  delayMs : Option Nat
  joinAttempted : Bool
  events : List Event
  deriving Repr, DecidableEq

/-- One firing of the reconnect watcher installed by `setupAutoReconnect`
(DiscordManager.ts lines 481-538), i.e. the `voiceStateUpdate` handler
body on an involuntary disconnect of the account's own presence,
including the `setTimeout` callback it schedules.

Source flow: warn; read the attempt counter; if it is ≥
`MAX_RECONNECT_ATTEMPTS`, show an error and return without scheduling
(lines 494-500); otherwise store counter+1 and schedule the callback
with the fixed delay `RECONNECT_TIMEOUT` (lines 502-535).  The callback:
gateway probe (on failure an error, nothing else); resolve guild and
channel from the cache; if both exist and the channel is a voice
channel, `joinChannel` with the account's presence flags — on success a
success message and the counter is set to 0 (line 528), a thrown join
error is caught and shown; if guild or channel is missing, silently do
nothing. -/
def watcherFire (env : ReconnectEnv) (account : Account)
    (m : List (String × Nat)) : FireResult :=
  let attempts := mapGet m account.token
  if MAX_RECONNECT_ATTEMPTS ≤ attempts then
    { attempts := m, scheduled := false, delayMs := none, joinAttempted := false
      events := [Event.reconnectingWarn account.name,
                 Event.reconnectStoppedError attempts] }
  else
    let m1 := mapSet m account.token (attempts + 1)
    if env.apiHealthy = false then
      { attempts := m1, scheduled := true, delayMs := some RECONNECT_TIMEOUT
        joinAttempted := false
        events := [Event.reconnectingWarn account.name, Event.apiDownError] }
    else if env.guildExists && env.channelExists && env.isVoiceChannel then
      if env.joinOk then
        { attempts := mapSet m1 account.token 0, scheduled := true
          delayMs := some RECONNECT_TIMEOUT, joinAttempted := true
          events := [Event.reconnectingWarn account.name,
                     Event.reconnectedSuccess account.name] }
      else
        { attempts := m1, scheduled := true, delayMs := some RECONNECT_TIMEOUT
          joinAttempted := true
          events := [Event.reconnectingWarn account.name,
                     Event.rejoinError account.name] }
    else
      { attempts := m1, scheduled := true, delayMs := some RECONNECT_TIMEOUT
        joinAttempted := false
        events := [Event.reconnectingWarn account.name] }

/-- `n` consecutive firings of the reconnect watcher, threading the
attempt map, together with the number of reconnects that got scheduled. -/
def fireTimes (env : ReconnectEnv) (account : Account) :
    Nat → List (String × Nat) → List (String × Nat) × Nat
  | 0, m => (m, 0)
  | n + 1, m =>
    let r := watcherFire env account m
    let rest := fireTimes env account n r.attempts
    (rest.1, (if r.scheduled then 1 else 0) + rest.2)

/-- Whether one watcher firing runs the whole success path (healthy
gateway, guild and voice channel resolved, `joinChannel` succeeded). -/
def rejoinSucceeds (env : ReconnectEnv) : Bool :=
  env.apiHealthy && (env.guildExists && env.channelExists && env.isVoiceChannel) && env.joinOk

/-- The credential column of the registry. -/
def tokensOf (l : List RunningClient) : List String :=
  l.map (fun rc => rc.account.token)

/-! ### Concrete sample data used by counterexamples and witnesses -/

def sampleAccount : Account :=
  { token := "tokA", name := "A", guildId := "G1", channelId := "C1"
    selfMute := true, selfDeaf := true, selfVideo := false }

def sampleAccountB : Account :=
  { token := "tokB", name := "B", guildId := "G1", channelId := "C2"
    selfMute := false, selfDeaf := true, selfVideo := false }

/-- `sampleAccount` pointed at a channel id that does not resolve. -/
def invalidChannelAccount : Account :=
  { sampleAccount with channelId := "INVALID" }

def emptyState : ManagerState :=
  { runningClients := [], connectionAttempts := [], isLowResourceMode := false
    nextClientId := 0 }

/-- Two registered sessions (ids 0 and 1) and one live attempt counter. -/
def twoClientState : ManagerState :=
  { runningClients :=
      [{ clientId := 0, account := sampleAccount, hasVoiceConn := true },
       { clientId := 1, account := sampleAccountB, hasVoiceConn := false }]
    connectionAttempts := [("tokA", 2)], isLowResourceMode := false
    nextClientId := 2 }

/-- A state whose attempt counter for `sampleAccount` is at the ceiling. -/
def ceilingState : ManagerState :=
  { runningClients := [], connectionAttempts := [("tokA", 5)]
    isLowResourceMode := false, nextClientId := 0 }

/-- Environment where everything the gateway is asked for succeeds. -/
def allGoodEnv : ConnectEnv :=
  { apiHealthy := true, loginOk := true, guildExists := true
    channelExists := true, isVoiceChannel := true, joinOk := true }

/-- A healthy connect environment whose channel does not resolve. -/
def badChannelEnv : ConnectEnv :=
  { apiHealthy := true, loginOk := true, guildExists := true
    channelExists := false, isVoiceChannel := true, joinOk := true }

/-- A connect environment with an unhealthy gateway probe. -/
def downApiEnv : ConnectEnv :=
  { apiHealthy := false, loginOk := true, guildExists := true
    channelExists := true, isVoiceChannel := true, joinOk := true }

/-- A reconnect environment where the rejoin is attempted but throws. -/
def failRejoinEnv : ReconnectEnv :=
  { apiHealthy := true, guildExists := true, channelExists := true
    isVoiceChannel := true, joinOk := false }

/-- A reconnect environment where the rejoin succeeds. -/
def goodRejoinEnv : ReconnectEnv :=
  { apiHealthy := true, guildExists := true, channelExists := true
    isVoiceChannel := true, joinOk := true }

/-! ### Helper lemmas about the map and registry operations -/

theorem find?_map_replace (m : List (String × Nat)) (k : String) (v : Nat)
    (hany : m.any (fun q => q.1 == k) = true) :
    (m.map (fun q => if q.1 == k then (k, v) else q)).find? (fun q => q.1 == k)
      = some (k, v) := by
  induction m with
  | nil => simp at hany
  | cons p rest ih =>
    rw [List.map_cons]
    by_cases hpk : (p.1 == k) = true
    · have h1 : (if (p.1 == k) = true then (k, v) else p) = (k, v) := by
        rw [if_pos hpk]
      rw [h1]
      exact List.find?_cons_of_pos _ (by simp)
    · have hb : (p.1 == k) = false := by simpa using hpk
      have h1 : (if (p.1 == k) = true then (k, v) else p) = p := by
        rw [if_neg (by simp [hb])]
      rw [h1, List.find?_cons_of_neg _ (by simp [hb])]
      exact ih (by simpa [List.any_cons, hb] using hany)

theorem find?_append_new (m : List (String × Nat)) (k : String) (v : Nat)
    (hany : m.any (fun q => q.1 == k) = false) :
    (m ++ [(k, v)]).find? (fun q => q.1 == k) = some (k, v) := by
  induction m with
  | nil => simp
  | cons p rest ih =>
    simp only [List.any_cons, Bool.or_eq_false_iff] at hany
    rw [List.cons_append, List.find?_cons_of_neg _ (by simp [hany.1])]
    exact ih hany.2

theorem mapGet_mapSet_self (m : List (String × Nat)) (k : String) (v : Nat) :
    mapGet (mapSet m k v) k = v := by
  unfold mapGet mapSet
  cases hany : m.any (fun q => q.1 == k) with
  | true =>
    rw [if_pos rfl, find?_map_replace m k v hany]
    rfl
  | false =>
    rw [if_neg (by simp), find?_append_new m k v hany]
    rfl

theorem mapLookup_mapDelete_self (m : List (String × Nat)) (k : String) :
    mapLookup (mapDelete m k) k = none := by
  have hfind : (mapDelete m k).find? (fun p => p.1 == k) = none := by
    rw [List.find?_eq_none]
    intro p hp
    have := (List.mem_filter.mp hp).2
    simp_all [mapDelete]
  unfold mapLookup
  rw [hfind]
  rfl

theorem mapGet_mapDelete_self (m : List (String × Nat)) (k : String) :
    mapGet (mapDelete m k) k = 0 := by
  have h := mapLookup_mapDelete_self m k
  unfold mapLookup at h
  unfold mapGet
  rw [h]
  rfl

theorem removeFirstByToken_sublist (tok : String) (l : List RunningClient) :
    List.Sublist (removeFirstByToken tok l) l := by
  induction l with
  | nil => simp [removeFirstByToken]
  | cons rc rest ih =>
    unfold removeFirstByToken
    split
    · exact List.sublist_cons_self rc rest
    · exact ih.cons₂ rc

theorem nodup_tokensOf_removeFirstByToken (tok : String) (l : List RunningClient)
    (h : (tokensOf l).Nodup) : (tokensOf (removeFirstByToken tok l)).Nodup :=
  h.sublist ((removeFirstByToken_sublist tok l).map _)

theorem not_mem_tokensOf_removeFirstByToken (tok : String) (l : List RunningClient)
    (h : (tokensOf l).Nodup) : tok ∉ tokensOf (removeFirstByToken tok l) := by
  induction l with
  | nil => simp [removeFirstByToken, tokensOf]
  | cons rc rest ih =>
    have h' : rc.account.token ∉ tokensOf rest ∧ (tokensOf rest).Nodup := by
      have : (rc.account.token :: tokensOf rest).Nodup := h
      exact List.nodup_cons.mp this
    unfold removeFirstByToken
    by_cases hrc : rc.account.token = tok
    · rw [if_pos (by simp [hrc])]
      rw [← hrc]
      exact h'.1
    · rw [if_neg (by simp [hrc])]
      intro hmem
      have hmem' : tok = rc.account.token ∨ tok ∈ tokensOf (removeFirstByToken tok rest) := by
        have : tok ∈ rc.account.token :: tokensOf (removeFirstByToken tok rest) := hmem
        exact List.mem_cons.mp this
      rcases hmem' with heq | hmem''
      · exact hrc heq.symm
      · exact ih h'.2 hmem''

theorem find?_token_eq_none_not_mem (t : String) (l : List RunningClient)
    (h : l.find? (fun rc => rc.account.token == t) = none) : t ∉ tokensOf l := by
  intro hmem
  rcases List.mem_map.mp hmem with ⟨rc, hrc, heq⟩
  have := List.find?_eq_none.mp h rc hrc
  simp [heq] at this

/-! ### Claim theorems -/

/-- C4: the reconnect-delay function is exactly
`delay(n) = min(5000ms * 2^n, 300000ms)` for every `n ≥ 0`; attempts 0..5
yield 5s, 10s, 20s, 40s, 80s, 160s, and every `n ≥ 6` yields the 300s
cap.  (It is a function of the attempt count alone by construction.) -/
theorem reconnect_delay_exact :
    (∀ n : Nat, getReconnectDelay n = min (5000 * 2 ^ n) 300000) ∧
    getReconnectDelay 0 = 5000 ∧ getReconnectDelay 1 = 10000 ∧
    getReconnectDelay 2 = 20000 ∧ getReconnectDelay 3 = 40000 ∧
    getReconnectDelay 4 = 80000 ∧ getReconnectDelay 5 = 160000 ∧
    ∀ n : Nat, 6 ≤ n → getReconnectDelay n = 300000 := by
  refine ⟨fun n => rfl, by decide, by decide, by decide, by decide, by decide, by decide,
    fun n hn => ?_⟩
  unfold getReconnectDelay RECONNECT_TIMEOUT
  have h2 : (2 : Nat) ^ 6 ≤ 2 ^ n := Nat.pow_le_pow_right (by norm_num) hn
  have h3 : 300000 ≤ 5000 * 2 ^ n :=
    le_trans (by norm_num) (Nat.mul_le_mul_left 5000 h2)
  simp only
  omega

/-- Witness for C4 at `n = 7`: the cap case of the schedule. -/
theorem reconnect_delay_exact_witness :
    getReconnectDelay 7 = min (5000 * 2 ^ 7) 300000 ∧
    6 ≤ 7 ∧ getReconnectDelay 7 = 300000 :=
  ⟨reconnect_delay_exact.1 7, by decide,
   reconnect_delay_exact.2.2.2.2.2.2.2 7 (by decide)⟩

/-- C5 (divergence): the reconnect watcher always schedules with the
fixed delay `RECONNECT_TIMEOUT = 5000` ms; at the second attempt (counter
1) the Reconnection Policy `getReconnectDelay` would give 10000 ms, so
the watcher does not wait the policy's backoff delay. -/
theorem watcher_uses_fixed_delay_not_policy :
    (watcherFire failRejoinEnv sampleAccount [("tokA", 1)]).delayMs = some 5000 ∧
    (watcherFire failRejoinEnv sampleAccount [("tokA", 1)]).scheduled = true ∧
    getReconnectDelay 1 = 10000 ∧ (5000 : Nat) ≠ 10000 := by
  refine ⟨by decide, by decide, by decide, by decide⟩

/-- C6: against an unhealthy gateway `connectAccount` returns `null`
after a single gateway-error notification and leaves the whole manager
state (registry and attempt counters included) unchanged. -/
theorem connect_unhealthy_gateway_unchanged (env : ConnectEnv) (a : Account)
    (s : ManagerState) (h : env.apiHealthy = false) :
    connectAccount env a s =
      { ret := none, state := s, events := [Event.apiDownError] } := by
  unfold connectAccount
  rw [if_pos h]

/-- Witness for C6 at a concrete unhealthy environment. -/
theorem connect_unhealthy_gateway_unchanged_witness :
    downApiEnv.apiHealthy = false ∧
    connectAccount downApiEnv sampleAccount twoClientState =
      { ret := none, state := twoClientState, events := [Event.apiDownError] } :=
  ⟨rfl, connect_unhealthy_gateway_unchanged downApiEnv sampleAccount twoClientState rfl⟩

/-- C8 (counterexample): at a sampled footprint of exactly 500 MB in
normal mode the monitor does not flip to reduced mode (the source
compares with strict `>`), contradicting the claimed flip at ≥ 500 MB. -/
theorem memory_mode_no_flip_at_500 :
    (500 : ℚ) ≥ 500 ∧ memoryMonitorTick 500 false = false :=
  ⟨le_refl _, by norm_num [memoryMonitorTick, HIGH_MEMORY_THRESHOLD]⟩

/-- C8 (amended): the resource-mode flag flips from normal to reduced
exactly when the sampled footprint is strictly greater than 500 MB,
flips from reduced back to normal exactly when it is below 350 MB, and
in particular keeps reduced mode at 490 MB. -/
theorem memory_mode_hysteresis :
    (∀ m : ℚ, memoryMonitorTick m false = true ↔ 500 < m) ∧
    (∀ m : ℚ, memoryMonitorTick m true = false ↔ m < 350) ∧
    memoryMonitorTick 490 true = true := by
  refine ⟨fun m => ?_, fun m => ?_, by norm_num [memoryMonitorTick, HIGH_MEMORY_THRESHOLD]⟩
  · unfold memoryMonitorTick HIGH_MEMORY_THRESHOLD
    split_ifs with h1 h2 <;> simp_all
  · unfold memoryMonitorTick HIGH_MEMORY_THRESHOLD
    split_ifs with h1 h2 <;> simp_all <;> linarith

/-- Witness for C8 (amended) at a concrete 501 MB sample. -/
theorem memory_mode_hysteresis_witness :
    memoryMonitorTick 501 false = true ∧ memoryMonitorTick 349 true = false :=
  ⟨(memory_mode_hysteresis.1 501).mpr (by norm_num),
   (memory_mode_hysteresis.2.1 349).mpr (by norm_num)⟩

/-- C9 (counterexample): a credential of at most 10 characters is
recorded by the masking function in full — `getMaskedToken` is the
identity on `"short"`, so the recorded form does not differ from the
token. -/
theorem masked_token_short_returned_in_full :
    getMaskedToken "short".data = "short".data := by decide

/-- C9 (amended): for credentials longer than 10 characters the masked
form is the 5-character prefix, an ellipsis, and the 5-character suffix
of the token; it has length 13 and hence differs from every such token
whose length is not 13.  (Tokens of length ≤ 10 are returned in full.) -/
theorem masked_token_prefix_suffix (t : List Char) (hlen : 10 < t.length)
    (h13 : t.length ≠ 13) :
    getMaskedToken t = t.take 5 ++ ['.', '.', '.'] ++ t.drop (t.length - 5) ∧
    (getMaskedToken t).length = 13 ∧
    getMaskedToken t ≠ t := by
  have hdef : getMaskedToken t = t.take 5 ++ ['.', '.', '.'] ++ t.drop (t.length - 5) := by
    unfold getMaskedToken
    rw [if_neg (by omega)]
  have hlen13 : (getMaskedToken t).length = 13 := by
    rw [hdef]
    simp [List.length_append, List.length_take, List.length_drop]
    omega
  refine ⟨hdef, hlen13, fun heq => ?_⟩
  apply h13
  rw [← heq, hlen13]

/-- Witness for C9 (amended) on a concrete 26-character token. -/
theorem masked_token_prefix_suffix_witness :
    10 < "abcdefghijklmnopqrstuvwxyz".data.length ∧
    "abcdefghijklmnopqrstuvwxyz".data.length ≠ 13 ∧
    getMaskedToken "abcdefghijklmnopqrstuvwxyz".data ≠ "abcdefghijklmnopqrstuvwxyz".data :=
  ⟨by decide, by decide,
   (masked_token_prefix_suffix "abcdefghijklmnopqrstuvwxyz".data (by decide) (by decide)).2.2⟩

/-- C1 (counterexample): connecting `invalidChannelAccount` (whose
channel id does not resolve) with a healthy gateway and a succeeding
login reports the channel-not-found error, yet the credential IS in the
running-client registry after the call — the failed resolution leaves
the session registered. -/
theorem connect_invalid_channel_still_registered :
    Event.channelNotFoundError "INVALID" ∈
      (connectAccount badChannelEnv invalidChannelAccount emptyState).events ∧
    tokensOf (connectAccount badChannelEnv invalidChannelAccount emptyState).state.runningClients
      = ["tokA"] := by
  refine ⟨by decide, by decide⟩

/-- C1 (amended): when login succeeds, a guild, channel or channel-type
resolution failure is reported with the corresponding error event, but
the credential is registered in the running-client registry regardless —
registration tracks login success, not room/channel resolution. -/
theorem connect_resolution_failure_reports_but_registers (env : ConnectEnv)
    (a : Account) (s : ManagerState)
    (hapi : env.apiHealthy = true) (hlogin : env.loginOk = true)
    (hex : s.runningClients.find? (fun rc => rc.account.token == a.token) = none)
    (hatt : mapGet s.connectionAttempts a.token < MAX_RECONNECT_ATTEMPTS) :
    (env.guildExists = false →
      Event.guildNotFoundError a.guildId ∈ (connectAccount env a s).events) ∧
    (env.guildExists = true → env.channelExists = false →
      Event.channelNotFoundError a.channelId ∈ (connectAccount env a s).events) ∧
    (env.guildExists = true → env.channelExists = true → env.isVoiceChannel = false →
      Event.notVoiceChannelError ∈ (connectAccount env a s).events) ∧
    a.token ∈ tokensOf (connectAccount env a s).state.runningClients := by
  unfold connectAccount
  rw [if_neg (by simp [hapi])]
  simp only [hex]
  rw [if_neg (by simpa using Nat.not_le.mpr hatt)]
  rw [if_neg (by simp [hlogin])]
  refine ⟨fun hg => ?_, fun hg hc => ?_, fun hg hc hv => ?_, ?_⟩
  · simp [hg]
  · simp [hg, hc]
  · simp [hg, hc, hv]
  · simp only [tokensOf]
    split_ifs <;>
      exact List.mem_map.mpr
        ⟨⟨s.nextClientId, a,
            env.guildExists && env.channelExists && env.isVoiceChannel && env.joinOk⟩,
          List.mem_append_right _ (List.mem_singleton.mpr rfl), rfl⟩

/-- Witness for C1 (amended) on the invalid-channel account at the empty
state. -/
theorem connect_resolution_failure_reports_but_registers_witness :
    badChannelEnv.apiHealthy = true ∧ badChannelEnv.loginOk = true ∧
    Event.channelNotFoundError "INVALID" ∈
      (connectAccount badChannelEnv invalidChannelAccount emptyState).events ∧
    "tokA" ∈
      tokensOf (connectAccount badChannelEnv invalidChannelAccount
        emptyState).state.runningClients :=
  ⟨rfl, rfl,
   (connect_resolution_failure_reports_but_registers badChannelEnv invalidChannelAccount
      emptyState rfl rfl rfl (by decide)).2.1 rfl rfl,
   (connect_resolution_failure_reports_but_registers badChannelEnv invalidChannelAccount
      emptyState rfl rfl rfl (by decide)).2.2.2⟩

/-- C7 (counterexample): on a registry of two sessions where the first
session's `destroy()` throws, `disconnectAll` lets the exception escape
(`completed = false`), the second session is never destroyed, and the
registry and the attempt counters are left exactly as they were — the
failure is not contained and the remaining sessions are not torn down. -/
theorem disconnectAll_throw_aborts_teardown :
    (disconnectAll (fun i => i == 0) twoClientState).completed = false ∧
    (disconnectAll (fun i => i == 0) twoClientState).state = twoClientState ∧
    (disconnectAll (fun i => i == 0) twoClientState).destroyed = [] ∧
    (disconnectAll (fun i => i == 0) twoClientState).state.runningClients.length = 2 := by
  refine ⟨by decide, by decide, by decide, by decide⟩

/-- The teardown loop under a never-throwing environment completes and
destroys every client, in registry order. -/
theorem teardownLoop_no_throw (throws : Nat → Bool) (l : List RunningClient)
    (h : ∀ rc ∈ l, throws rc.clientId = false) :
    (teardownLoop throws l).2.2 = true ∧
    (teardownLoop throws l).2.1 = l.map (fun rc => rc.clientId) := by
  induction l with
  | nil => simp [teardownLoop]
  | cons rc rest ih =>
    have hrc : throws rc.clientId = false := h rc (by simp)
    have ihr := ih (fun x hx => h x (by simp [hx]))
    unfold teardownLoop
    rw [if_neg (by simp [hrc])]
    simp only [List.map_cons]
    exact ⟨ihr.1, by rw [ihr.2]⟩

/-- C7 (amended): when no session's teardown throws, `disconnectAll`
destroys every registered client, empties the registry and — provided at
least one session was registered — clears the attempt counters; but a
teardown that throws propagates to the caller and leaves the manager
state exactly as it was (remaining sessions stay registered). -/
theorem disconnectAll_no_throw_clears (throws : Nat → Bool) (s : ManagerState)
    (h : ∀ rc ∈ s.runningClients, throws rc.clientId = false) :
    (disconnectAll throws s).completed = true ∧
    (disconnectAll throws s).state.runningClients = [] ∧
    (s.runningClients ≠ [] → (disconnectAll throws s).state.connectionAttempts = []) ∧
    (disconnectAll throws s).destroyed = s.runningClients.map (fun rc => rc.clientId) ∧
    ∀ throws' s', (disconnectAll throws' s').completed = false →
      (disconnectAll throws' s').state = s' := by
  have habort : ∀ throws' s', (disconnectAll throws' s').completed = false →
      (disconnectAll throws' s').state = s' := by
    intro throws' s' hf
    unfold disconnectAll at hf ⊢
    by_cases h1 : s'.runningClients.isEmpty = true
    · rw [if_pos h1] at hf
      simp at hf
    · rw [if_neg h1] at hf ⊢
      by_cases h2 : (teardownLoop throws' s'.runningClients).2.2 = true
      · rw [if_pos h2] at hf
        simp at hf
      · rw [if_neg h2]
  have hloop := teardownLoop_no_throw throws s.runningClients h
  by_cases hempty : s.runningClients = []
  · unfold disconnectAll
    rw [if_pos (by simp [hempty])]
    exact ⟨rfl, hempty, fun hne => absurd hempty hne, by simp [hempty], habort⟩
  · unfold disconnectAll
    dsimp only
    rw [if_neg (by simp [hempty]), if_pos hloop.1]
    exact ⟨rfl, rfl, fun _ => rfl, hloop.2, habort⟩

/-- At or above the attempt ceiling a watcher firing schedules nothing
and leaves the attempt map untouched. -/
theorem watcherFire_ceiling (env : ReconnectEnv) (a : Account)
    (m : List (String × Nat)) (h : MAX_RECONNECT_ATTEMPTS ≤ mapGet m a.token) :
    (watcherFire env a m).scheduled = false ∧
    (watcherFire env a m).attempts = m ∧
    (watcherFire env a m).joinAttempted = false ∧
    (watcherFire env a m).delayMs = none := by
  unfold watcherFire
  rw [if_pos h]
  exact ⟨rfl, rfl, rfl, rfl⟩

/-- Below the ceiling a watcher firing always schedules a reconnect,
with the fixed `RECONNECT_TIMEOUT` delay. -/
theorem watcherFire_below (env : ReconnectEnv) (a : Account)
    (m : List (String × Nat)) (h : mapGet m a.token < MAX_RECONNECT_ATTEMPTS) :
    (watcherFire env a m).scheduled = true ∧
    (watcherFire env a m).delayMs = some RECONNECT_TIMEOUT := by
  unfold watcherFire
  rw [if_neg (Nat.not_le.mpr h)]
  split_ifs <;> exact ⟨rfl, rfl⟩

/-- Below the ceiling, a firing whose rejoin does not fully succeed
leaves the credential's counter incremented by one. -/
theorem watcherFire_increment (env : ReconnectEnv) (a : Account)
    (m : List (String × Nat)) (h : mapGet m a.token < MAX_RECONNECT_ATTEMPTS)
    (hsucc : rejoinSucceeds env = false) :
    mapGet (watcherFire env a m).attempts a.token = mapGet m a.token + 1 := by
  unfold watcherFire
  rw [if_neg (Nat.not_le.mpr h)]
  unfold rejoinSucceeds at hsucc
  cases hapi : env.apiHealthy <;> cases hg : env.guildExists <;>
    cases hc : env.channelExists <;> cases hv : env.isVoiceChannel <;>
    cases hj : env.joinOk <;>
    simp_all [mapGet_mapSet_self]

/-- Below the ceiling, a firing whose rejoin fully succeeds resets the
credential's counter to 0. -/
theorem watcherFire_reset (env : ReconnectEnv) (a : Account)
    (m : List (String × Nat)) (h : mapGet m a.token < MAX_RECONNECT_ATTEMPTS)
    (hsucc : rejoinSucceeds env = true) :
    mapGet (watcherFire env a m).attempts a.token = 0 := by
  unfold watcherFire
  rw [if_neg (Nat.not_le.mpr h)]
  unfold rejoinSucceeds at hsucc
  cases hapi : env.apiHealthy <;> cases hg : env.guildExists <;>
    cases hc : env.channelExists <;> cases hv : env.isVoiceChannel <;>
    cases hj : env.joinOk <;>
    simp_all [mapGet_mapSet_self]

/-- Under an environment whose rejoin never fully succeeds, `n`
consecutive firings starting from counter `c` schedule exactly
`min n (5 - c)` reconnects. -/
theorem fireTimes_count (env : ReconnectEnv) (a : Account)
    (hsucc : rejoinSucceeds env = false) :
    ∀ (n : Nat) (m : List (String × Nat)) (c : Nat), mapGet m a.token = c →
      (fireTimes env a n m).2 = min n (MAX_RECONNECT_ATTEMPTS - c) := by
  intro n
  induction n with
  | zero => intro m c hc; simp [fireTimes]
  | succ k ih =>
    intro m c hc
    unfold fireTimes
    dsimp only
    by_cases hceil : MAX_RECONNECT_ATTEMPTS ≤ mapGet m a.token
    · have hfire := watcherFire_ceiling env a m hceil
      rw [hfire.1, hfire.2.1, if_neg (by simp), ih m c hc]
      rw [hc] at hceil
      simp only [MAX_RECONNECT_ATTEMPTS] at *
      omega
    · have hlt : mapGet m a.token < MAX_RECONNECT_ATTEMPTS := Nat.not_le.mp hceil
      have hfire := watcherFire_below env a m hlt
      have hinc := watcherFire_increment env a m hlt hsucc
      rw [hfire.1, if_pos rfl, ih (watcherFire env a m).attempts (c + 1) (by rw [hinc, hc])]
      have hclt : c < MAX_RECONNECT_ATTEMPTS := hc ▸ hlt
      simp only [MAX_RECONNECT_ATTEMPTS] at *
      omega

/-- C3: the reconnect watcher stops permanently at the 5-attempt
ceiling: at counter ≥ 5 a firing schedules nothing and changes nothing;
below the ceiling every firing schedules a reconnect and sets the
counter to 0 on a fully successful rejoin and to counter+1 otherwise;
hence any run of consecutive firings without a successful rejoin,
starting from counter 0, schedules exactly `min n 5` reconnects — a 6th
is never scheduled. -/
theorem reconnect_stops_after_five_attempts :
    (∀ (env : ReconnectEnv) (a : Account) (m : List (String × Nat)),
      MAX_RECONNECT_ATTEMPTS ≤ mapGet m a.token →
      (watcherFire env a m).scheduled = false ∧ (watcherFire env a m).attempts = m) ∧
    (∀ (env : ReconnectEnv) (a : Account) (m : List (String × Nat)),
      mapGet m a.token < MAX_RECONNECT_ATTEMPTS →
      (watcherFire env a m).scheduled = true ∧
      mapGet (watcherFire env a m).attempts a.token =
        (if rejoinSucceeds env then 0 else mapGet m a.token + 1)) ∧
    (∀ (env : ReconnectEnv) (a : Account) (n : Nat) (m : List (String × Nat)),
      rejoinSucceeds env = false → mapGet m a.token = 0 →
      (fireTimes env a n m).2 = min n MAX_RECONNECT_ATTEMPTS) := by
  refine ⟨fun env a m h =>
      ⟨(watcherFire_ceiling env a m h).1, (watcherFire_ceiling env a m h).2.1⟩,
    fun env a m h => ⟨(watcherFire_below env a m h).1, ?_⟩,
    fun env a n m hs h0 => by simpa using fireTimes_count env a hs n m 0 h0⟩
  cases hsucc : rejoinSucceeds env
  · simpa using watcherFire_increment env a m h hsucc
  · simpa using watcherFire_reset env a m h hsucc

/-- Witness for C3 at concrete counters 5 and 0 and eight consecutive
failing firings. -/
theorem reconnect_stops_after_five_attempts_witness :
    ((watcherFire goodRejoinEnv sampleAccount [("tokA", 5)]).scheduled = false ∧
      (watcherFire goodRejoinEnv sampleAccount [("tokA", 5)]).attempts = [("tokA", 5)]) ∧
    (watcherFire failRejoinEnv sampleAccount [("tokA", 0)]).scheduled = true ∧
    (fireTimes failRejoinEnv sampleAccount 8 [("tokA", 0)]).2 = min 8 MAX_RECONNECT_ATTEMPTS :=
  ⟨reconnect_stops_after_five_attempts.1 goodRejoinEnv sampleAccount [("tokA", 5)] (by decide),
   (reconnect_stops_after_five_attempts.2.1 failRejoinEnv sampleAccount [("tokA", 0)]
     (by decide)).1,
   reconnect_stops_after_five_attempts.2.2 failRejoinEnv sampleAccount 8 [("tokA", 0)]
     (by decide) (by decide)⟩

/-- Appending a freshly created client for a credential that is not yet
registered preserves uniqueness of credentials. -/
theorem nodup_append_new (l : List RunningClient) (a : Account) (cid : Nat) (b : Bool)
    (h : (tokensOf l).Nodup) (hnm : a.token ∉ tokensOf l) :
    (tokensOf (l ++ [⟨cid, a, b⟩])).Nodup := by
  simp only [tokensOf, List.map_append, List.map_cons, List.map_nil]
  rw [List.nodup_append]
  refine ⟨h, List.nodup_singleton _, fun x hx hx' => ?_⟩
  rw [List.mem_singleton.mp hx'] at hx
  exact hnm hx

/-- `connectAccount` preserves uniqueness of credentials in the
running-client registry. -/
theorem connectAccount_preserves_nodup (env : ConnectEnv) (a : Account)
    (s : ManagerState) (h : (tokensOf s.runningClients).Nodup) :
    (tokensOf (connectAccount env a s).state.runningClients).Nodup := by
  unfold connectAccount
  by_cases hapi : env.apiHealthy = false
  · rw [if_pos hapi]; exact h
  · rw [if_neg hapi]
    cases hex : s.runningClients.find? (fun rc => rc.account.token == a.token) with
    | none =>
      simp only [hex]
      have hnotmem : a.token ∉ tokensOf s.runningClients :=
        find?_token_eq_none_not_mem a.token _ hex
      by_cases hceil : MAX_RECONNECT_ATTEMPTS ≤ mapGet s.connectionAttempts a.token
      · rw [if_pos hceil]; exact h
      · rw [if_neg hceil]
        by_cases hlog : env.loginOk = false
        · rw [if_pos hlog]; exact h
        · rw [if_neg hlog]
          split_ifs <;> exact nodup_append_new _ a _ _ h hnotmem
    | some rc =>
      simp only [hex]
      have h1 : (tokensOf (removeFirstByToken a.token s.runningClients)).Nodup :=
        nodup_tokensOf_removeFirstByToken a.token _ h
      have h2 : a.token ∉ tokensOf (removeFirstByToken a.token s.runningClients) :=
        not_mem_tokensOf_removeFirstByToken a.token _ h
      by_cases hceil : MAX_RECONNECT_ATTEMPTS ≤
          mapGet (mapDelete s.connectionAttempts a.token) a.token
      · rw [if_pos hceil]; exact h1
      · rw [if_neg hceil]
        by_cases hlog : env.loginOk = false
        · rw [if_pos hlog]; exact h1
        · rw [if_neg hlog]
          split_ifs <;> exact nodup_append_new _ a _ _ h1 h2

/-- C2: every connect/disconnect step preserves "at most one running
client per credential": `connectAccount` and `disconnectAll` both map a
duplicate-free registry to a duplicate-free registry, and when a client
for the same credential is already registered, `connectAccount` destroys
it (its `destroy` effect is emitted) and, having cleared its attempt
counter first, is never blocked by the attempt ceiling. -/
theorem registry_at_most_one_session_per_credential :
    (∀ (env : ConnectEnv) (a : Account) (s : ManagerState),
      (tokensOf s.runningClients).Nodup →
      (tokensOf (connectAccount env a s).state.runningClients).Nodup) ∧
    (∀ (throws : Nat → Bool) (s : ManagerState),
      (tokensOf s.runningClients).Nodup →
      (tokensOf (disconnectAll throws s).state.runningClients).Nodup) ∧
    (∀ (env : ConnectEnv) (a : Account) (s : ManagerState) (rc : RunningClient),
      env.apiHealthy = true →
      s.runningClients.find? (fun rc => rc.account.token == a.token) = some rc →
      Event.destroyClient rc.clientId ∈ (connectAccount env a s).events ∧
      ∀ n, Event.tooManyAttemptsError n ∉ (connectAccount env a s).events) := by
  refine ⟨connectAccount_preserves_nodup, fun throws s h => ?_, fun env a s rc hapi hex => ?_⟩
  · unfold disconnectAll
    dsimp only
    by_cases h1 : s.runningClients.isEmpty = true
    · rw [if_pos h1]; exact h
    · rw [if_neg h1]
      by_cases h2 : (teardownLoop throws s.runningClients).2.2 = true
      · rw [if_pos h2]; simp [tokensOf]
      · rw [if_neg h2]; exact h
  · unfold connectAccount
    rw [if_neg (by simp [hapi])]
    simp only [hex]
    have hz : mapGet (mapDelete s.connectionAttempts a.token) a.token = 0 :=
      mapGet_mapDelete_self _ _
    rw [if_neg (by rw [hz]; decide)]
    by_cases hlog : env.loginOk = false
    · rw [if_pos hlog]
      constructor
      · split_ifs <;> simp
      · intro n
        split_ifs <;> simp
    · rw [if_neg hlog]
      constructor
      · split_ifs <;> simp
      · intro n
        split_ifs <;> simp

/-- Witness for C2 on the concrete two-session state. -/
theorem registry_at_most_one_session_per_credential_witness :
    (tokensOf (connectAccount allGoodEnv sampleAccount twoClientState).state.runningClients).Nodup ∧
    (tokensOf (disconnectAll (fun _ => false) twoClientState).state.runningClients).Nodup ∧
    Event.destroyClient 0 ∈ (connectAccount allGoodEnv sampleAccount twoClientState).events :=
  ⟨registry_at_most_one_session_per_credential.1 allGoodEnv sampleAccount twoClientState
     (by decide),
   registry_at_most_one_session_per_credential.2.1 (fun _ => false) twoClientState (by decide),
   (registry_at_most_one_session_per_credential.2.2 allGoodEnv sampleAccount twoClientState
     { clientId := 0, account := sampleAccount, hasVoiceConn := true } rfl (by decide)).1⟩

/-- C10: the shared 5-attempt counter also gates fresh initial connects.
With a healthy gateway and no session registered for the credential:
(a) at counter ≥ 5, `connectAccount` returns `null` before attempting
login, registers nothing and leaves the counter (and registry)
unchanged; (b) below the ceiling the login is attempted and the counter
is first incremented — it ends at old+1 whenever the join did not
succeed (login failure or any resolution/join failure) and is cleared
exactly by a fully successful join. -/
theorem ceiling_gates_initial_connect :
    (∀ (env : ConnectEnv) (a : Account) (s : ManagerState),
      env.apiHealthy = true →
      s.runningClients.find? (fun rc => rc.account.token == a.token) = none →
      MAX_RECONNECT_ATTEMPTS ≤ mapGet s.connectionAttempts a.token →
      (connectAccount env a s).ret = none ∧
      (connectAccount env a s).state.runningClients = s.runningClients ∧
      (connectAccount env a s).state.connectionAttempts = s.connectionAttempts ∧
      (∀ t, Event.loginAttempt t ∉ (connectAccount env a s).events) ∧
      Event.tooManyAttemptsError (mapGet s.connectionAttempts a.token) ∈
        (connectAccount env a s).events) ∧
    (∀ (env : ConnectEnv) (a : Account) (s : ManagerState),
      env.apiHealthy = true →
      s.runningClients.find? (fun rc => rc.account.token == a.token) = none →
      mapGet s.connectionAttempts a.token < MAX_RECONNECT_ATTEMPTS →
      Event.loginAttempt a.token ∈ (connectAccount env a s).events ∧
      (env.loginOk = false →
        (connectAccount env a s).ret = none ∧
        (connectAccount env a s).state.runningClients = s.runningClients ∧
        mapGet (connectAccount env a s).state.connectionAttempts a.token =
          mapGet s.connectionAttempts a.token + 1) ∧
      (env.loginOk = true →
        (env.guildExists && env.channelExists && env.isVoiceChannel && env.joinOk) = false →
        mapGet (connectAccount env a s).state.connectionAttempts a.token =
          mapGet s.connectionAttempts a.token + 1) ∧
      (env.loginOk = true →
        (env.guildExists && env.channelExists && env.isVoiceChannel && env.joinOk) = true →
        mapLookup (connectAccount env a s).state.connectionAttempts a.token = none)) := by
  constructor
  · intro env a s hapi hex hceil
    unfold connectAccount
    rw [if_neg (by simp [hapi])]
    simp only [hex]
    rw [if_pos hceil]
    exact ⟨rfl, rfl, rfl, fun t => by simp, by simp⟩
  · intro env a s hapi hex hlt
    unfold connectAccount
    rw [if_neg (by simp [hapi])]
    simp only [hex]
    rw [if_neg (Nat.not_le.mpr hlt)]
    refine ⟨?_, fun hlog => ?_, fun hlog hjoin => ?_, fun hlog hjoin => ?_⟩
    · split_ifs <;> simp
    · rw [if_pos hlog]
      exact ⟨rfl, rfl, mapGet_mapSet_self _ _ _⟩
    · rw [if_neg (by simp [hlog]), if_neg (by simp [hjoin])]
      exact mapGet_mapSet_self _ _ _
    · rw [if_neg (by simp [hlog]), if_pos hjoin]
      exact mapLookup_mapDelete_self _ _

/-- Witness for C10 at the concrete ceiling state and at the empty
state. -/
theorem ceiling_gates_initial_connect_witness :
    (connectAccount allGoodEnv sampleAccount ceilingState).ret = none ∧
    (connectAccount allGoodEnv sampleAccount ceilingState).state.connectionAttempts =
      ceilingState.connectionAttempts ∧
    Event.loginAttempt sampleAccount.token ∈
      (connectAccount allGoodEnv sampleAccount emptyState).events :=
  ⟨(ceiling_gates_initial_connect.1 allGoodEnv sampleAccount ceilingState rfl (by decide)
      (by decide)).1,
   (ceiling_gates_initial_connect.1 allGoodEnv sampleAccount ceilingState rfl (by decide)
      (by decide)).2.2.1,
   (ceiling_gates_initial_connect.2 allGoodEnv sampleAccount emptyState rfl rfl
      (by decide)).1⟩

/-- Witness for C7 (amended) on the two-session state with no throwing
teardown. -/
theorem disconnectAll_no_throw_clears_witness :
    (disconnectAll (fun _ => false) twoClientState).completed = true ∧
    (disconnectAll (fun _ => false) twoClientState).state.runningClients = [] ∧
    (disconnectAll (fun _ => false) twoClientState).state.connectionAttempts = [] ∧
    (disconnectAll (fun _ => false) twoClientState).destroyed = [0, 1] := by
  have h := disconnectAll_no_throw_clears (fun _ => false) twoClientState
    (fun rc _ => rfl)
  exact ⟨h.1, h.2.1, h.2.2.1 (by decide), by rw [h.2.2.2.1]; decide⟩

end Autovoice
